import Mathlib

/-!
# Circular playlist front end: session-gated refresh and synchronisation

A shallow embedding of `src/app.js`.  The script is a set of asynchronous
handlers over four pieces of mutable state: the server (reached through
`fetch`), the favourites mirror `favIds`, the document, and `localStorage`.
Each handler becomes a function from a `World` to an outcome (`Except`) and
the world it leaves behind; a handler that throws keeps every write it made
before throwing, so the world is returned on both outcomes.

What belongs to the browser and not to the script is kept abstract:
the server is a transition function `respond`, the page origin is `origin`,
and the absolute form under which a media element reports its `src`
is `resolveURL`.  Handlers run one at a time (no interleaving is modelled).
-/

namespace CircularPlaylist

/-! ## Data model -/

/-- Song as the server returns it; `audio_url` is optional. -/
structure Song where
  id : Nat
  title : String
  artist : String
  duration_sec : Nat
  audio_url : Option String
deriving DecidableEq, Repr

/-- Scalar values the script serialises into request bodies. -/
inductive Scalar
  | num (n : Nat)
  | str (s : String)
  | null
deriving DecidableEq, Repr

/-- Request body: the object handed to `JSON.stringify`, field by field. -/
abbrev JsonObj := List (String × Scalar)

/-- Header list of a request. -/
abbrev Headers := List (String × String)

/-- Path argument of `api`: a literal such as `/me`, or a template literal
that ends in a song id, such as `/favorites/` followed by `s.id`. -/
inductive Path
  | lit (s : String)
  | withId (stem : String) (id : Nat)
deriving DecidableEq, Repr

/-- Text of a path as it is appended to the origin. -/
def Path.render : Path → String
  | .lit s => s
  | .withId stem id => stem ++ toString id

/-- Options object a caller hands to `api`; `none` is an absent property. -/
structure Opts where
  method : Option String
  body : Option JsonObj
  headers : Option Headers
deriving DecidableEq, Repr

/-- Default `opts = {}` of `api`. -/
def noOpts : Opts := ⟨none, none, none⟩

/-- One call of `fetch`: the origin and path that make the URL, and the
init object after the spread. -/
structure Request where
  base : String
  path : Path
  method : Option String
  body : Option JsonObj
  headers : Headers
deriving DecidableEq, Repr

/-- URL the request goes to, `API + path`. -/
def Request.url (r : Request) : String := r.base ++ r.path.render

/-- Parsed JSON body of a response: an object, of which the script reads the
properties `user` and `song`, or an array of songs. -/
inductive Body
  | obj (user : Option String) (song : Option Song)
  | arr (items : List Song)
deriving DecidableEq, Repr

/-- Property `user` of a body; absent on arrays. -/
def Body.user : Body → Option String
  | .obj u _ => u
  | .arr _ => none

/-- Property `song` of a body; absent on arrays. -/
def Body.song : Body → Option Song
  | .obj _ s => s
  | .arr _ => none

/-- Array view of a body: only arrays have `map` and `forEach`. -/
def Body.asArray : Body → Option (List Song)
  | .obj _ _ => none
  | .arr l => some l

/-- What `fetch` yields: a rejection, or a response with its `ok` flag, its
text, and its JSON reading (`none` when the text is not JSON). -/
inductive Reply
  | netFail (msg : String)
  | http (ok : Bool) (text : String) (json : Option Body)
deriving DecidableEq, Repr

/-- Footprint of the browser around the script. -/
structure Env (σ : Type) where
  origin : String
  respond : σ → Request → Reply × σ
  resolveURL : String → String

/-- Network side of the world: server state and the requests sent so far. -/
structure Net (σ : Type) where
  srv : σ
  log : List Request

/-- JavaScript truthiness of a string-or-null value. -/
def truthy : Option String → Bool
  | some s => s != ""
  | none => false

/-- Message of the `TypeError` raised by a property access on `null` or by a
missing method. -/
def typeError : String := "TypeError"

/-- Message of the rejection of `res.json()` on a body that is not JSON. -/
def syntaxError : String := "SyntaxError"

/-! ## Remote call gateway (`api`, lines 3-10) -/

/-- The init object `{ headers: {...}, ...opts }`: the spread copies every
own property of `opts` over the default, `headers` included. -/
def fetchInit (base : String) (path : Path) (opts : Opts) : Request :=
  { base := base
    path := path
    method := opts.method
    body := opts.body
    headers := match opts.headers with
      | some h => h
      | none => [("Content-Type", "application/json")] }

/-- Function `api(path, opts)`. -/
def api {σ : Type} (E : Env σ) (path : Path) (opts : Opts) (n : Net σ) :
    Except String Body × Net σ :=
  let req := fetchInit E.origin path opts
  let out := E.respond n.srv req
  let n1 : Net σ := { srv := out.2, log := n.log ++ [req] }
  match out.1 with
  | .netFail msg => (.error msg, n1)
  | .http false text _ => (.error text, n1)
  | .http true _ none => (.error syntaxError, n1)
  | .http true _ (some b) => (.ok b, n1)

/-! ## Remembered-identity store (lines 13-21) -/

/-- The `localStorage` slot `rememberUser`; when `available` is false every
access throws. -/
structure Storage where
  available : Bool
  rememberUser : Option String
deriving DecidableEq, Repr

/-- Function `getRememberedUser()`. -/
def getRememberedUser (st : Storage) : Option String :=
  if st.available then st.rememberUser else none

/-- Function `setRememberedUser(u)`: stores `u || ''`. -/
def setRememberedUser (u : Option String) (st : Storage) : Storage :=
  if st.available then
    { st with rememberUser := some (if truthy u then u.getD "" else "") }
  else st

/-- Function `clearRememberedUser()`. -/
def clearRememberedUser (st : Storage) : Storage :=
  if st.available then { st with rememberUser := none } else st

/-! ## The favourites mirror (`favIds`, a JavaScript `Set`) -/

/-- Method `Set.prototype.has`. -/
def JSSet.has (s : List Nat) (x : Nat) : Bool := s.contains x

/-- Method `Set.prototype.add`. -/
def JSSet.add (s : List Nat) (x : Nat) : List Nat :=
  if s.contains x then s else s ++ [x]

/-- Method `Set.prototype.delete`. -/
def JSSet.delete (s : List Nat) (x : Nat) : List Nat :=
  s.filter (fun y => y != x)

/-- Constructor `new Set(iterable)`. -/
def JSSet.ofList (l : List Nat) : List Nat :=
  l.foldl JSSet.add []

/-! ## The document -/

/-- Calls the script makes on the audio element. -/
inductive PlayerOp
  | load (url : String)
  | removeSrc
  | pause
  | play
deriving DecidableEq, Repr

/-- The audio element: its `src` attribute, its `paused` flag, and the calls
made on it, oldest first.  An entry `load u` is an assignment of `src`, which
makes the element start over with the new resource and leaves it paused. -/
structure Player where
  src : Option String
  paused : Bool
  ops : List PlayerOp
deriving DecidableEq, Repr

/-- Getter `player.src`: empty without the attribute, otherwise the
attribute resolved to an absolute URL. -/
def Player.srcProp (resolveURL : String → String) (p : Player) : String :=
  match p.src with
  | none => ""
  | some a => resolveURL a

/-- Assignment `player.src = url`: the element runs its load algorithm, which
pauses an element that was playing. -/
def Player.assignSrc (url : String) (p : Player) : Player :=
  { p with src := some url, paused := true, ops := p.ops ++ [.load url] }

/-- Call `player.removeAttribute('src')`. -/
def Player.removeSrc (p : Player) : Player :=
  { p with src := none, ops := p.ops ++ [.removeSrc] }

/-- Call `player.pause()`. -/
def Player.pause (p : Player) : Player :=
  { p with paused := true, ops := p.ops ++ [.pause] }

/-- Call `player.play()`; a rejection of its promise is swallowed. -/
def Player.play (p : Player) : Player :=
  { p with paused := false, ops := p.ops ++ [.play] }

/-- List item built by `liSong`: its text and, when it has one, the text of
its favourite button. -/
structure Li where
  text : String
  favBtn : Option String
deriving DecidableEq, Repr

/-- State of the elements the script looks up by id; `none` is an element
that is not in the page.  For the three surfaces the flag is the presence of
the class `hidden`. -/
structure Dom where
  loginScreen : Option Bool
  appHeader : Option Bool
  appRoot : Option Bool
  loginBtn : Option String
  loginScreenUsername : Option String
  rememberMe : Option Bool
  player : Option Player
  songs : Option (List Li)
  queue : Option (List Li)
  history : Option (List Li)
  nowPlaying : Option String
  favorites : Option (List Li)
  queueOnly : Option (List Li)
  historyOnly : Option (List Li)
deriving DecidableEq, Repr

/-- Whole client-visible state. -/
structure World (σ : Type) where
  net : Net σ
  favIds : List Nat
  dom : Dom
  store : Storage

/-- Star shown for a song id. -/
def star (favIds : List Nat) (id : Nat) : String :=
  if JSSet.has favIds id then "★" else "☆"

/-- Function `liSong(s, withFav)`. -/
def liSong (favIds : List Nat) (s : Song) (withFav : Bool) : Li :=
  let text := toString s.id ++ ": " ++ s.title ++ " - " ++ s.artist
  if !withFav then { text := text, favBtn := none }
  else { text := text, favBtn := some (star favIds s.id) }

/-- The test `song && song.audio_url`, with the URL when it passes. -/
def playable (song : Option Song) : Option String :=
  match song with
  | none => none
  | some s => if truthy s.audio_url then s.audio_url else none

/-- Function `setPlayer(song, shouldPlay)` (lines 51-65). -/
def setPlayer {σ : Type} (E : Env σ) (song : Option Song) (shouldPlay : Bool) (d : Dom) : Dom :=
  match d.player with
  | none => d
  | some player =>
    match playable song with
    | some url =>
      let p1 := if player.srcProp E.resolveURL != url then player.assignSrc url else player
      let p2 := if shouldPlay then p1.play else p1
      { d with player := some p2 }
    | none => { d with player := some player.removeSrc.pause }

/-! ## Favourites: re-fetch, rendering and the toggle handler -/

/-- Function `renderFavoritesList(fav)` (lines 133-138). -/
def renderFavoritesList (favIds : List Nat) (fav : List Song) (d : Dom) : Dom :=
  match d.favorites with
  | none => d
  | some _ => { d with favorites := some (fav.map fun s => liSong favIds s true) }

/-- Function `renderQueueOnly(queue)` (lines 140-145). -/
def renderQueueOnly (favIds : List Nat) (queue : List Song) (d : Dom) : Dom :=
  match d.queueOnly with
  | none => d
  | some _ => { d with queueOnly := some (queue.map fun s => liSong favIds s false) }

/-- Function `renderHistoryOnly(history)` (lines 147-152). -/
def renderHistoryOnly (favIds : List Nat) (history : List Song) (d : Dom) : Dom :=
  match d.historyOnly with
  | none => d
  | some _ => { d with historyOnly := some (history.map fun s => liSong favIds s false) }

/-- Function `refreshFavoritesOnly()` (lines 127-131). -/
def refreshFavoritesOnly {σ : Type} (E : Env σ) (w : World σ) : Except String Unit × World σ :=
  match api E (.lit "/favorites") noOpts w.net with
  | (.error e, n) => (.error e, { w with net := n })
  | (.ok b, n) =>
    match b.asArray with
    | none => (.error typeError, { w with net := n })
    | some fav =>
      let ids := JSSet.ofList (fav.map fun x => x.id)
      (.ok (), { w with net := n, favIds := ids, dom := renderFavoritesList ids fav w.dom })

/-- Render targets whose items carry a favourite button. -/
inductive Target
  | songs
  | queue
  | history
  | favorites
deriving DecidableEq, Repr

/-- Place of a favourite button in the page: the list it is in and the
position of its item.  A place with no button there is a detached button. -/
structure BtnRef where
  target : Target
  index : Nat
deriving DecidableEq, Repr

/-- Assignment `btn.textContent = txt` on the button of the item at `i`. -/
def setBtnAt : List Li → Nat → String → List Li
  | [], _, _ => []
  | li :: rest, 0, txt =>
    (match li.favBtn with
     | some _ => { li with favBtn := some txt }
     | none => li) :: rest
  | li :: rest, i + 1, txt => li :: setBtnAt rest i txt

/-- Assignment `btn.textContent = txt` seen from the page. -/
def setBtnText (btn : BtnRef) (txt : String) (d : Dom) : Dom :=
  match btn.target with
  | .songs => { d with songs := d.songs.map fun l => setBtnAt l btn.index txt }
  | .queue => { d with queue := d.queue.map fun l => setBtnAt l btn.index txt }
  | .history => { d with history := d.history.map fun l => setBtnAt l btn.index txt }
  | .favorites => { d with favorites := d.favorites.map fun l => setBtnAt l btn.index txt }

/-- Lines 38-44 of the click handler: the remote call, then the patch of the
mirror. -/
def toggleRemote {σ : Type} (E : Env σ) (s : Song) (w : World σ) : Except String Unit × World σ :=
  if JSSet.has w.favIds s.id then
    match api E (.withId "/favorites/" s.id) ⟨some "DELETE", none, none⟩ w.net with
    | (.error e, n) => (.error e, { w with net := n })
    | (.ok _, n) => (.ok (), { w with net := n, favIds := JSSet.delete w.favIds s.id })
  else
    match api E (.lit "/favorites") ⟨some "POST", some [("song_id", .num s.id)], none⟩ w.net with
    | (.error e, n) => (.error e, { w with net := n })
    | (.ok _, n) => (.ok (), { w with net := n, favIds := JSSet.add w.favIds s.id })

/-- Click handler of the favourite button that `liSong` builds for `s`
(lines 36-47). -/
def favBtnClick {σ : Type} (E : Env σ) (s : Song) (btn : BtnRef) (w : World σ) :
    Except String Unit × World σ :=
  match toggleRemote E s w with
  | (.error e, w1) => (.error e, w1)
  | (.ok _, w1) =>
    refreshFavoritesOnly E { w1 with dom := setBtnText btn (star w1.favIds s.id) w1.dom }

/-! ## Session-gated refresh (lines 67-125) -/

/-- Lines 78-80 (and 240-242): reveal the login surface, hide the application. -/
def showLoginSurface (d : Dom) : Except String Unit × Dom :=
  match d.loginScreen with
  | none => (.error typeError, d)
  | some _ =>
    let d1 := { d with loginScreen := some false }
    match d1.appHeader with
    | none => (.error typeError, d1)
    | some _ =>
      let d2 := { d1 with appHeader := some true }
      match d2.appRoot with
      | none => (.error typeError, d2)
      | some _ => (.ok (), { d2 with appRoot := some true })

/-- Lines 92-94: hide the login surface, reveal the application. -/
def showAppSurface (d : Dom) : Except String Unit × Dom :=
  match d.loginScreen with
  | none => (.error typeError, d)
  | some _ =>
    let d1 := { d with loginScreen := some true }
    match d1.appHeader with
    | none => (.error typeError, d1)
    | some _ =>
      let d2 := { d1 with appHeader := some false }
      match d2.appRoot with
      | none => (.error typeError, d2)
      | some _ => (.ok (), { d2 with appRoot := some false })

/-- Assignment `loginBtn.textContent = txt` (lines 81 and 95). -/
def setLoginBtn (txt : String) (d : Dom) : Except String Unit × Dom :=
  match d.loginBtn with
  | none => (.error typeError, d)
  | some _ => (.ok (), { d with loginBtn := some txt })

/-- Lines 83-85: prefill of the login username field. -/
def prefill (remembered : Option String) (d : Dom) : Dom :=
  let u := if truthy remembered then remembered.getD "" else ""
  match d.loginScreenUsername with
  | none => d
  | some v =>
    if u != "" && v != u then { d with loginScreenUsername := some u } else d

/-- Lines 86-87 (and 247-248): stop the audio element when there is one. -/
def stopPlayer (d : Dom) : Dom :=
  match d.player with
  | none => d
  | some p => { d with player := some p.pause.removeSrc }

/-- Outcomes of the five fetches of the fan-out. -/
structure FanOut where
  songs : Except String Body
  queue : Except String Body
  history : Except String Body
  play : Except String Body
  fav : Except String Body

/-- The five calls of lines 98-102: each `api` call reaches `fetch` before
the next one starts, so the five requests go out in this order whatever their
outcomes. -/
def fanOut {σ : Type} (E : Env σ) (n : Net σ) : FanOut × Net σ :=
  let a := api E (.lit "/songs") noOpts n
  let b := api E (.lit "/queue") noOpts a.2
  let c := api E (.lit "/history") noOpts b.2
  let d := api E (.lit "/play") noOpts c.2
  let e := api E (.lit "/favorites") noOpts d.2
  (⟨a.1, b.1, c.1, d.1, e.1⟩, e.2)

/-- The `Promise.all` of line 97: all five bodies, or a rejection when one
fetch fails (of several failures the first in list order is reported). -/
def promiseAll (r : FanOut) : Except String (Body × Body × Body × Body × Body) :=
  match r.songs with
  | .error x => .error x
  | .ok a =>
    match r.queue with
    | .error x => .error x
    | .ok b =>
      match r.history with
      | .error x => .error x
      | .ok c =>
        match r.play with
        | .error x => .error x
        | .ok d =>
          match r.fav with
          | .error x => .error x
          | .ok e => .ok (a, b, c, d, e)

/-- Lines 105-115: clear the three primary render targets, then fill them. -/
def renderPrimary (favIds : List Nat) (songs queue history : Body) (d : Dom) :
    Except String (List Song × List Song) × Dom :=
  match d.songs with
  | none => (.error typeError, d)
  | some _ =>
    let d1 := { d with songs := some [] }
    match d1.queue with
    | none => (.error typeError, d1)
    | some _ =>
      let d2 := { d1 with queue := some [] }
      match d2.history with
      | none => (.error typeError, d2)
      | some _ =>
        let d3 := { d2 with history := some [] }
        match songs.asArray with
        | none => (.error typeError, d3)
        | some ss =>
          let d4 := { d3 with songs := some (ss.map fun s => liSong favIds s true) }
          match queue.asArray with
          | none => (.error typeError, d4)
          | some qs =>
            let d5 := { d4 with queue := some (qs.map fun s => liSong favIds s true) }
            match history.asArray with
            | none => (.error typeError, d5)
            | some hs =>
              (.ok (qs, hs), { d5 with history := some (hs.map fun s => liSong favIds s true) })

/-- Text of the now-playing label (line 117). -/
def nowPlayingText (song : Option Song) : String :=
  match song with
  | some s => s.title ++ " - " ++ s.artist
  | none => "None"

/-- Lines 104-124: apply the five fetched bodies. -/
def applyFetched {σ : Type} (E : Env σ) (songs queue history play fav : Body) (w : World σ) :
    Except String Unit × World σ :=
  match fav.asArray with
  | none => (.error typeError, w)
  | some favL =>
    let ids := JSSet.ofList (favL.map fun x => x.id)
    match renderPrimary ids songs queue history w.dom with
    | (.error e, d) => (.error e, { w with favIds := ids, dom := d })
    | (.ok (qs, hs), d) =>
      match d.nowPlaying with
      | none => (.error typeError, { w with favIds := ids, dom := d })
      | some _ =>
        let d1 := { d with nowPlaying := some (nowPlayingText play.song) }
        let d2 := setPlayer E play.song false d1
        let d3 := renderHistoryOnly ids hs (renderQueueOnly ids qs (renderFavoritesList ids favL d2))
        (.ok (), { w with favIds := ids, dom := d3 })

/-- Function `refresh()`. -/
def refresh {σ : Type} (E : Env σ) (w : World σ) : Except String Unit × World σ :=
  match api E (.lit "/me") noOpts w.net with
  | (.error e, n) => (.error e, { w with net := n })
  | (.ok me, n) =>
    let remembered := getRememberedUser w.store
    if !truthy me.user then
      match showLoginSurface w.dom with
      | (.error e, d) => (.error e, { w with net := n, dom := d })
      | (.ok _, d) =>
        match setLoginBtn "Login" d with
        | (.error e, d1) => (.error e, { w with net := n, dom := d1 })
        | (.ok _, d1) => (.ok (), { w with net := n, dom := stopPlayer (prefill remembered d1) })
    else
      match showAppSurface w.dom with
      | (.error e, d) => (.error e, { w with net := n, dom := d })
      | (.ok _, d) =>
        match setLoginBtn ("Logout (" ++ me.user.getD "" ++ ")") d with
        | (.error e, d1) => (.error e, { w with net := n, dom := d1 })
        | (.ok _, d1) =>
          let out := fanOut E n
          match promiseAll out.1 with
          | .error e => (.error e, { w with net := out.2, dom := d1 })
          | .ok (songs, queue, history, play, fav) =>
            applyFetched E songs queue history play fav { w with net := out.2, dom := d1 }

/-! ## Login form and header button (lines 156-164 and 231-254) -/

/-- White space and line terminators that `String.prototype.trim` strips. -/
def isJsSpace (c : Char) : Bool :=
  let n := c.toNat
  n == 9 || n == 10 || n == 11 || n == 12 || n == 13 || n == 32 || n == 160 ||
  n == 5760 || (8192 ≤ n && n ≤ 8202) || n == 8232 || n == 8233 || n == 8239 ||
  n == 8287 || n == 12288 || n == 65279

/-- Method `String.prototype.trim`. -/
def jsTrim (s : String) : String :=
  String.mk ((s.data.dropWhile isJsSpace).rdropWhile isJsSpace)

/-- Submit handler of the login form (lines 156-164). -/
def loginSubmit {σ : Type} (E : Env σ) (w : World σ) : Except String Unit × World σ :=
  match w.dom.loginScreenUsername with
  | none => (.error typeError, w)
  | some v =>
    let username := jsTrim v
    match w.dom.rememberMe with
    | none => (.error typeError, w)
    | some remember =>
      if username == "" then (.ok (), w)
      else
        match api E (.lit "/login") ⟨some "POST", some [("username", .str username)], none⟩
            w.net with
        | (.error e, n) => (.error e, { w with net := n })
        | (.ok _, n) =>
          let st := if remember then setRememberedUser (some username) w.store
            else clearRememberedUser w.store
          refresh E { w with net := n, store := st }

/-- Click handler of the header login/logout button (lines 231-254). -/
def loginBtnClick {σ : Type} (E : Env σ) (w : World σ) : Except String Unit × World σ :=
  match api E (.lit "/me") noOpts w.net with
  | (.error e, n) => (.error e, { w with net := n })
  | (.ok me, n) =>
    if truthy me.user then
      match api E (.lit "/logout") ⟨some "POST", none, none⟩ n with
      | (.error e, n1) => (.error e, { w with net := n1 })
      | (.ok _, n1) =>
        let st := clearRememberedUser w.store
        match showLoginSurface w.dom with
        | (.error e, d) => (.error e, { w with net := n1, store := st, dom := d })
        | (.ok _, d) =>
          match d.loginScreenUsername with
          | none => (.error typeError, { w with net := n1, store := st, dom := d })
          | some _ => refresh E { w with net := n1, store := st, dom := stopPlayer d }
    else
      match w.dom.loginScreenUsername with
      | none => (.error typeError, { w with net := n })
      | some _ => (.ok (), { w with net := n })

/-! ## A server to run the client against -/

/-- State of the modelled server: the session, the collections, the current
song and the favourites set of the user. -/
structure ServerState where
  user : Option String
  songs : List Song
  queue : List Song
  history : List Song
  current : Option Song
  favs : List Nat
deriving DecidableEq, Repr

/-- Successful response carrying `b`. -/
def okReply (b : Body) : Reply := .http true "" (some b)

/-- List the server returns for `GET /favorites`: its songs whose id is in
the favourites set. -/
def favoritesOf (st : ServerState) : List Song :=
  st.songs.filter fun s => JSSet.has st.favs s.id

/-- Modelled from the spec: the server behind the remote operations of
section 6, which is not part of this repository.  It keeps one favourites set,
which only `POST /favorites` (adds `song_id`) and `DELETE /favorites/{id}`
(removes `id`) change; `GET /favorites` lists the songs in the set;
`POST /login` and `POST /logout` set and clear the session; the other `GET`
operations return the stored collections; anything else is a 404. -/
def refRespond (st : ServerState) (r : Request) : Reply × ServerState :=
  let verb := r.method.getD "GET"
  if verb = "GET" then
    if r.path = .lit "/me" then (okReply (.obj st.user none), st)
    else if r.path = .lit "/songs" then (okReply (.arr st.songs), st)
    else if r.path = .lit "/queue" then (okReply (.arr st.queue), st)
    else if r.path = .lit "/history" then (okReply (.arr st.history), st)
    else if r.path = .lit "/play" then (okReply (.obj none st.current), st)
    else if r.path = .lit "/favorites" then (okReply (.arr (favoritesOf st)), st)
    else (.http false "Not Found" none, st)
  else if verb = "POST" then
    if r.path = .lit "/login" then
      match r.body with
      | some [("username", .str u)] => (okReply (.obj (some u) none), { st with user := some u })
      | _ => (.http false "Bad Request" none, st)
    else if r.path = .lit "/logout" then (okReply (.obj none none), { st with user := none })
    else if r.path = .lit "/favorites" then
      match r.body with
      | some [("song_id", .num k)] =>
        (okReply (.obj none none), { st with favs := JSSet.add st.favs k })
      | _ => (.http false "Bad Request" none, st)
    else (.http false "Not Found" none, st)
  else if verb = "DELETE" then
    match r.path with
    | .withId "/favorites/" k => (okReply (.obj none none), { st with favs := JSSet.delete st.favs k })
    | _ => (.http false "Not Found" none, st)
  else (.http false "Method Not Allowed" none, st)

/-- Environment in which the page is served from `origin` by the modelled
server and URLs are reported as `resolveURL` gives them. -/
def refEnv (origin : String) (resolveURL : String → String) : Env ServerState :=
  { origin := origin, respond := refRespond, resolveURL := resolveURL }

/-- Resolution of a URL reference against the page origin, for the two forms
that occur here: a reference that starts with `/` is put after the origin,
anything else is taken to be absolute already. -/
def resolveAgainst (origin : String) (ref : String) : String :=
  match ref.data with
  | '/' :: _ => origin ++ ref
  | _ => ref

/-! ## Predicates used in the statements -/

/-- Number of `play()` calls made on the audio element so far. -/
def playCalls (p : Option Player) : Nat :=
  match p with
  | some q => q.ops.count PlayerOp.play
  | none => 0

/-- The element is playing: it is there and not paused. -/
def isPlaying (p : Option Player) : Bool :=
  match p with
  | some q => !q.paused
  | none => false

/-- No playback was requested between two states of the audio element. -/
def Quiet (a b : Option Player) : Prop :=
  playCalls b = playCalls a ∧ (isPlaying a = false → isPlaying b = false)

/-- Two pages show the same data: the seven render targets and the audio
element are equal (the surfaces, the header button and the form may differ). -/
def SameContent (d d1 : Dom) : Prop :=
  d1.songs = d.songs ∧ d1.queue = d.queue ∧ d1.history = d.history ∧
  d1.favorites = d.favorites ∧ d1.queueOnly = d.queueOnly ∧ d1.historyOnly = d.historyOnly ∧
  d1.nowPlaying = d.nowPlaying ∧ d1.player = d.player

instance (a b : Option Player) : Decidable (Quiet a b) := by
  unfold Quiet
  infer_instance

instance (d d1 : Dom) : Decidable (SameContent d d1) := by
  unfold SameContent
  infer_instance

/-- The request goes to `/login`. -/
def isLoginCall (r : Request) : Bool := decide (r.path = .lit "/login")

/-! ## Sample page, server and worlds -/

/-- Origin of the sample page. -/
def demoOrigin : String := "http://localhost:5000"

/-- Sample environment: the modelled server, URLs resolved against the origin. -/
def demoEnv : Env ServerState := refEnv demoOrigin (resolveAgainst demoOrigin)

/-- Sample song with an audio file served by the application itself. -/
def songA : Song := ⟨1, "Aria", "Ann", 180, some "/media/aria.mp3"⟩

/-- Sample song without audio. -/
def songB : Song := ⟨5, "Blues", "Bo", 200, none⟩

/-- Audio element that is playing `songA`. -/
def playingPlayer : Player :=
  ⟨some "/media/aria.mp3", false, [.load "/media/aria.mp3", .play]⟩

/-- Audio element of a freshly loaded page. -/
def freshPlayer : Player := ⟨none, true, []⟩

/-- Page with every element present, the username field holding `field`. -/
def pageWith (field : String) (player : Player) : Dom :=
  { loginScreen := some false, appHeader := some true, appRoot := some true,
    loginBtn := some "Login", loginScreenUsername := some field, rememberMe := some true,
    player := some player, songs := some [], queue := some [], history := some [],
    nowPlaying := some "None", favorites := some [], queueOnly := some [],
    historyOnly := some [] }

/-- Server on which nobody is logged in. -/
def anonServer : ServerState := ⟨none, [songA, songB], [], [], none, []⟩

/-- Server with the session of `bob`, `songA` current, favourites `favs`. -/
def bobServer (favs : List Nat) : ServerState :=
  ⟨some "bob", [songA, songB], [songB], [], some songA, favs⟩

/-- World of a logged-out page on which audio is still playing. -/
def loggedOutWorld : World ServerState :=
  ⟨⟨anonServer, []⟩, [5], pageWith "" playingPlayer, ⟨true, none⟩⟩

/-- World of a freshly loaded page while `bob` has a session. -/
def bobWorld : World ServerState :=
  ⟨⟨bobServer [5], []⟩, [], pageWith "" freshPlayer, ⟨true, none⟩⟩

/-- Environment in which the modelled server answers every request for
`bad` with a 500 and everything else as usual. -/
def failingOn (bad : Path) : Env ServerState :=
  { origin := demoOrigin
    respond := fun st r =>
      if r.path = bad then (.http false "Internal Server Error" none, st) else refRespond st r
    resolveURL := resolveAgainst demoOrigin }

/-- Options that carry a `headers` field of their own. -/
def tracedPost : Opts := ⟨some "POST", none, some [("X-Trace", "1")]⟩

/-- World of a logged-out page on which `alice` has been typed into the
username field while `bob` is the remembered identity. -/
def typedWorld : World ServerState :=
  ⟨⟨anonServer, []⟩, [], pageWith "alice" freshPlayer, ⟨true, some "bob"⟩⟩

/-- Page as a reload leaves it: every element back to its initial state, the
mirror empty; the server and `localStorage` are kept. -/
def reloaded {σ : Type} (w : World σ) : World σ :=
  { w with favIds := [], dom := pageWith "" freshPlayer }

/-- World of the login screen with `bob` typed and "remember me" checked. -/
def loginWorld : World ServerState :=
  ⟨⟨anonServer, []⟩, [], pageWith "bob" freshPlayer, ⟨true, none⟩⟩

/-- World after `bob` has logged in with "remember me" and reloaded the page
(the reload runs `refresh()` once, from `init`). -/
def bobRemembered : World ServerState :=
  (refresh demoEnv (reloaded (loginSubmit demoEnv loginWorld).2)).2

/-- World of `bob` after the first refresh of a freshly loaded page: the
mirror agrees with the server, both hold id 5. -/
def bobSynced : World ServerState := (refresh demoEnv bobWorld).2

/-- World in which the mirror is stale: it still holds id 5, which is not in
the favourites set of the server, as when the session has changed and the
refresh that followed failed in its fan-out. -/
def staleWorld : World ServerState :=
  ⟨⟨bobServer [], []⟩, [5], pageWith "" freshPlayer, ⟨true, none⟩⟩

/-! ## Auxiliary facts -/

theorem jsSet_has_iff (s : List Nat) (x : Nat) : JSSet.has s x = true ↔ x ∈ s := by
  simp [JSSet.has]

theorem jsSet_has_eq_false_iff (s : List Nat) (x : Nat) : JSSet.has s x = false ↔ x ∉ s := by
  simp [JSSet.has]

theorem jsSet_mem_add (s : List Nat) (x y : Nat) : y ∈ JSSet.add s x ↔ y ∈ s ∨ y = x := by
  unfold JSSet.add
  by_cases h : x ∈ s
  · simp [h]
    intro hy; subst hy; exact h
  · simp [h]

theorem jsSet_mem_delete (s : List Nat) (x y : Nat) : y ∈ JSSet.delete s x ↔ y ∈ s ∧ y ≠ x := by
  simp [JSSet.delete]

theorem jsSet_mem_foldl_add (l acc : List Nat) (y : Nat) :
    y ∈ l.foldl JSSet.add acc ↔ y ∈ acc ∨ y ∈ l := by
  induction l generalizing acc with
  | nil => simp
  | cons a t ih =>
    simp only [List.foldl_cons, ih, jsSet_mem_add, List.mem_cons]
    tauto

theorem jsSet_mem_ofList (l : List Nat) (y : Nat) : y ∈ JSSet.ofList l ↔ y ∈ l := by
  simp [JSSet.ofList, jsSet_mem_foldl_add]

theorem api_log {σ : Type} (E : Env σ) (path : Path) (opts : Opts) (n : Net σ) :
    (api E path opts n).2.log = n.log ++ [fetchInit E.origin path opts] := by
  unfold api
  dsimp only
  split <;> rfl

theorem showLoginSurface_ok (d : Dom) (h1 : d.loginScreen ≠ none) (h2 : d.appHeader ≠ none)
    (h3 : d.appRoot ≠ none) :
    ∃ d1, showLoginSurface d = (.ok (), d1) ∧ d1.loginBtn = d.loginBtn ∧
      d1.player = d.player ∧ d1.loginScreenUsername = d.loginScreenUsername := by
  unfold showLoginSurface
  cases ha : d.loginScreen with
  | none => exact absurd ha h1
  | some a =>
    cases hb : d.appHeader with
    | none => exact absurd hb h2
    | some b =>
      cases hc : d.appRoot with
      | none => exact absurd hc h3
      | some c => simp [hb, hc]

theorem stopPlayer_stopped (d : Dom) (p : Player) (h : (stopPlayer d).player = some p) :
    p.paused = true ∧ p.src = none := by
  unfold stopPlayer at h
  cases hp : d.player with
  | none => simp [hp] at h
  | some q =>
    simp [hp] at h
    subst h
    simp [Player.pause, Player.removeSrc]

theorem stopPlayer_player (d : Dom) :
    (stopPlayer d).player = d.player.map (fun p => p.pause.removeSrc) := by
  unfold stopPlayer
  cases hp : d.player <;> simp [hp]

theorem quiet_refl (a : Option Player) : Quiet a a := ⟨rfl, id⟩

theorem showLoginSurface_player (d : Dom) : (showLoginSurface d).2.player = d.player := by
  unfold showLoginSurface
  repeat' (first | split | dsimp only)

theorem showAppSurface_player (d : Dom) : (showAppSurface d).2.player = d.player := by
  unfold showAppSurface
  repeat' (first | split | dsimp only)

theorem setLoginBtn_player (t : String) (d : Dom) : (setLoginBtn t d).2.player = d.player := by
  unfold setLoginBtn
  split <;> rfl

theorem prefill_player (r : Option String) (d : Dom) : (prefill r d).player = d.player := by
  unfold prefill
  repeat' (first | split | dsimp only)

theorem renderPrimary_player (f : List Nat) (a b c : Body) (d : Dom) :
    (renderPrimary f a b c d).2.player = d.player := by
  unfold renderPrimary
  repeat' (first | split | dsimp only)

theorem renderFavoritesList_player (f : List Nat) (l : List Song) (d : Dom) :
    (renderFavoritesList f l d).player = d.player := by
  unfold renderFavoritesList
  split <;> rfl

theorem renderQueueOnly_player (f : List Nat) (l : List Song) (d : Dom) :
    (renderQueueOnly f l d).player = d.player := by
  unfold renderQueueOnly
  split <;> rfl

theorem renderHistoryOnly_player (f : List Nat) (l : List Song) (d : Dom) :
    (renderHistoryOnly f l d).player = d.player := by
  unfold renderHistoryOnly
  split <;> rfl

theorem stopPlayer_quiet (d : Dom) : Quiet d.player (stopPlayer d).player := by
  unfold stopPlayer
  cases hp : d.player with
  | none => simp [hp]; exact quiet_refl _
  | some q =>
    simp [Quiet, playCalls, isPlaying, Player.pause, Player.removeSrc, List.count_append]

theorem setPlayer_quiet {σ : Type} (E : Env σ) (song : Option Song) (d : Dom) :
    Quiet d.player (setPlayer E song false d).player := by
  unfold setPlayer
  cases hp : d.player with
  | none => simp [hp]; exact quiet_refl _
  | some q =>
    simp only
    split
    · simp only [Bool.false_eq_true, if_false]
      split
      · simp [Quiet, playCalls, isPlaying, Player.assignSrc, List.count_append]
      · exact quiet_refl _
    · simp [Quiet, playCalls, isPlaying, Player.pause, Player.removeSrc, List.count_append]

theorem applyFetched_quiet {σ : Type} (E : Env σ) (a b c p f : Body) (w : World σ) :
    Quiet w.dom.player (applyFetched E a b c p f w).2.dom.player := by
  unfold applyFetched
  split
  · exact quiet_refl _
  · rename_i favL _
    dsimp only
    have hp := renderPrimary_player (JSSet.ofList (List.map (fun x => x.id) favL)) a b c w.dom
    split
    · rename_i heq
      rw [heq] at hp
      simp only at hp ⊢
      rw [hp]; exact quiet_refl _
    · rename_i heq
      rw [heq] at hp
      simp only at hp
      split
      · simp only; rw [hp]; exact quiet_refl _
      · simp only [renderHistoryOnly_player, renderQueueOnly_player, renderFavoritesList_player]
        rw [← hp]
        exact setPlayer_quiet E p.song _

theorem refresh_quiet {σ : Type} (E : Env σ) (w : World σ) :
    Quiet w.dom.player (refresh E w).2.dom.player := by
  unfold refresh
  rcases hapi : api E (.lit "/me") noOpts w.net with ⟨r, n⟩
  cases r with
  | error e => exact quiet_refl _
  | ok me =>
    dsimp only
    split
    · have h1 := showLoginSurface_player w.dom
      rcases hs : showLoginSurface w.dom with ⟨r1, d⟩
      rw [hs] at h1
      cases r1 with
      | error e => dsimp only at h1 ⊢; rw [h1]; exact quiet_refl _
      | ok u =>
        dsimp only at h1 ⊢
        have h2 := setLoginBtn_player "Login" d
        rcases hb : setLoginBtn "Login" d with ⟨r2, d1⟩
        rw [hb] at h2
        cases r2 with
        | error e => dsimp only at h2 ⊢; rw [h2, h1]; exact quiet_refl _
        | ok u2 =>
          dsimp only at h2 ⊢
          have h3 := stopPlayer_quiet (prefill (getRememberedUser w.store) d1)
          rw [prefill_player, h2, h1] at h3
          exact h3
    · have h1 := showAppSurface_player w.dom
      rcases hs : showAppSurface w.dom with ⟨r1, d⟩
      rw [hs] at h1
      cases r1 with
      | error e => dsimp only at h1 ⊢; rw [h1]; exact quiet_refl _
      | ok u =>
        dsimp only at h1 ⊢
        have h2 := setLoginBtn_player ("Logout (" ++ me.user.getD "" ++ ")") d
        rcases hb : setLoginBtn ("Logout (" ++ me.user.getD "" ++ ")") d with ⟨r2, d1⟩
        rw [hb] at h2
        cases r2 with
        | error e => dsimp only at h2 ⊢; rw [h2, h1]; exact quiet_refl _
        | ok u2 =>
          dsimp only at h2 ⊢
          cases hall : promiseAll (fanOut E n).1 with
          | error e => dsimp only; rw [h2, h1]; exact quiet_refl _
          | ok t =>
            obtain ⟨a, b, c, p, f⟩ := t
            dsimp only
            have h3 := applyFetched_quiet E a b c p f
              { w with net := (fanOut E n).2, dom := d1 }
            dsimp only at h3
            rw [h2, h1] at h3
            exact h3

theorem refreshFavoritesOnly_player {σ : Type} (E : Env σ) (w : World σ) :
    (refreshFavoritesOnly E w).2.dom.player = w.dom.player := by
  unfold refreshFavoritesOnly
  split
  · rfl
  · split
    · rfl
    · simp only [renderFavoritesList_player]

/-- C1: when `GET /me` resolves to a body whose `user` is null, `refresh()`
sends that one request and nothing else.  On return the audio element is the
element of before, paused and with its `src` removed (it is still in the page
when it was, and these two calls are all that happened to it), so it is
paused and has no source; and `refresh()` does return when the three surfaces
and the header button are in the page. -/
theorem refresh_anonymous_gated {σ : Type} (E : Env σ) (w : World σ) (me : Body)
    (hme : (api E (.lit "/me") noOpts w.net).1 = .ok me) (hnull : me.user = none) :
    (refresh E w).2.net.log = w.net.log ++ [fetchInit E.origin (.lit "/me") noOpts] ∧
    ((refresh E w).1 = .ok () →
      (refresh E w).2.dom.player = w.dom.player.map (fun p => p.pause.removeSrc) ∧
      (∀ p0, w.dom.player = some p0 →
        ∃ p, (refresh E w).2.dom.player = some p ∧ p.paused = true ∧ p.src = none ∧
          p.ops = p0.ops ++ [.pause, .removeSrc])) ∧
    (∀ p, (refresh E w).1 = .ok () → (refresh E w).2.dom.player = some p →
        p.paused = true ∧ p.src = none) ∧
    (w.dom.loginScreen ≠ none → w.dom.appHeader ≠ none → w.dom.appRoot ≠ none →
        w.dom.loginBtn ≠ none → (refresh E w).1 = .ok ()) := by
  have hlog := api_log E (.lit "/me") noOpts w.net
  rcases hapi : api E (.lit "/me") noOpts w.net with ⟨r, n⟩
  rw [hapi] at hme hlog
  simp only at hme hlog
  subst hme
  have hfalsy : truthy me.user = false := by rw [hnull]; rfl
  unfold refresh
  simp only [hapi, hfalsy]
  refine ⟨?_, ?_, ?_, ?_⟩
  · simp only [Bool.not_false, if_true]
    split
    · simpa using hlog
    · split <;> simpa using hlog
  · simp only [Bool.not_false, if_true]
    have h1 := showLoginSurface_player w.dom
    rcases hs : showLoginSurface w.dom with ⟨r1, d⟩
    rw [hs] at h1
    cases r1 with
    | error e => intro hok; simp at hok
    | ok u =>
      dsimp only at h1 ⊢
      have h2 := setLoginBtn_player "Login" d
      rcases hb : setLoginBtn "Login" d with ⟨r2, d1⟩
      rw [hb] at h2
      cases r2 with
      | error e => intro hok; simp at hok
      | ok u2 =>
        dsimp only at h2 ⊢
        intro _
        have h3 : (stopPlayer (prefill (getRememberedUser w.store) d1)).player
            = w.dom.player.map (fun p => p.pause.removeSrc) := by
          rw [stopPlayer_player, prefill_player, h2, h1]
        refine ⟨h3, ?_⟩
        intro p0 hp0
        rw [h3, hp0]
        exact ⟨p0.pause.removeSrc, rfl, rfl, rfl, by
          simp [Player.pause, Player.removeSrc]⟩
  · intro p
    simp only [Bool.not_false, if_true]
    split
    · simp
    · split
      · simp
      · simp only
        intro _ h
        exact stopPlayer_stopped _ p h
  · intro h1 h2 h3 h4
    obtain ⟨d1, hd1, hbtn, -, -⟩ := showLoginSurface_ok w.dom h1 h2 h3
    rw [hd1]
    simp only
    unfold setLoginBtn
    cases hb : d1.loginBtn with
    | none => rw [hbtn] at hb; exact absurd hb h4
    | some b => simp

/-- Instance of the session gate on the logged-out sample page, where audio
is playing: one request, a normal return, and the element of the page is
afterwards paused, without source, with `pause` and `removeAttribute` as the
last two calls made on it. -/
theorem refresh_anonymous_gated_witness :
    (refresh demoEnv loggedOutWorld).2.net.log
        = [fetchInit demoOrigin (.lit "/me") noOpts] ∧
      (refresh demoEnv loggedOutWorld).1 = .ok () ∧
      (refresh demoEnv loggedOutWorld).2.dom.player
        = some ⟨none, true, [.load "/media/aria.mp3", .play, .pause, .removeSrc]⟩ ∧
      (∃ p, (refresh demoEnv loggedOutWorld).2.dom.player = some p ∧ p.paused = true ∧
        p.src = none ∧ p.ops = playingPlayer.ops ++ [.pause, .removeSrc]) :=
  have h := refresh_anonymous_gated demoEnv loggedOutWorld (.obj none none) rfl rfl
  have hok : (refresh demoEnv loggedOutWorld).1 = .ok () :=
    h.2.2.2 (by decide) (by decide) (by decide) (by decide)
  ⟨h.1, hok, (h.2.1 hok).1, (h.2.1 hok).2 playingPlayer rfl⟩

/-- C2: a passive refresh never requests playback.  `setPlayer` with
`shouldPlay = false`, `refresh()` and `refreshFavoritesOnly()` make no call of
`play()` on the audio element and leave an element that was not playing not
playing, whatever the server answers; `refreshFavoritesOnly()` does not touch
the element at all. -/
theorem no_autoplay_on_passive_refresh {σ : Type} (E : Env σ) (w : World σ)
    (song : Option Song) (d : Dom) :
    (playCalls (setPlayer E song false d).player = playCalls d.player ∧
      (isPlaying d.player = false → isPlaying (setPlayer E song false d).player = false)) ∧
    (playCalls (refresh E w).2.dom.player = playCalls w.dom.player ∧
      (isPlaying w.dom.player = false → isPlaying (refresh E w).2.dom.player = false)) ∧
    (refreshFavoritesOnly E w).2.dom.player = w.dom.player :=
  ⟨setPlayer_quiet E song d, refresh_quiet E w, refreshFavoritesOnly_player E w⟩

/-- Instance on the freshly loaded page of `bob`: after the refresh the element is loaded and paused. -/
theorem no_autoplay_on_passive_refresh_witness :
    isPlaying (setPlayer demoEnv (some songA) false bobWorld.dom).player = false ∧
      isPlaying (refresh demoEnv bobWorld).2.dom.player = false :=
  have h := no_autoplay_on_passive_refresh demoEnv bobWorld (some songA) bobWorld.dom
  ⟨h.1.2 (by decide), h.2.1.2 (by decide)⟩

theorem toggleRemote_log {σ : Type} (E : Env σ) (s : Song) (w : World σ) :
    (toggleRemote E s w).2.net.log = w.net.log ++
      [if JSSet.has w.favIds s.id then
          fetchInit E.origin (.withId "/favorites/" s.id) ⟨some "DELETE", none, none⟩
        else
          fetchInit E.origin (.lit "/favorites")
            ⟨some "POST", some [("song_id", .num s.id)], none⟩] := by
  unfold toggleRemote
  split
  · have h := api_log E (.withId "/favorites/" s.id) ⟨some "DELETE", none, none⟩ w.net
    split <;> rename_i heq <;> rw [heq] at h <;> exact h
  · have h := api_log E (.lit "/favorites") ⟨some "POST", some [("song_id", .num s.id)], none⟩
      w.net
    split <;> rename_i heq <;> rw [heq] at h <;> exact h

/-- C3: when the remote call of the favourite toggle fails (the `DELETE` for
an id in the mirror, the `POST` otherwise), the handler fails with that
error, `favIds` and the page are what they were, and the failed call is the
only request sent: no favourites re-fetch follows. -/
theorem toggle_failure_keeps_mirror {σ : Type} (E : Env σ) (s : Song) (btn : BtnRef)
    (w : World σ) (e : String)
    (hdel : JSSet.has w.favIds s.id = true →
      (api E (.withId "/favorites/" s.id) ⟨some "DELETE", none, none⟩ w.net).1 = .error e)
    (hadd : JSSet.has w.favIds s.id = false →
      (api E (.lit "/favorites") ⟨some "POST", some [("song_id", .num s.id)], none⟩ w.net).1
        = .error e) :
    (favBtnClick E s btn w).1 = .error e ∧
    (favBtnClick E s btn w).2.favIds = w.favIds ∧
    (favBtnClick E s btn w).2.dom = w.dom ∧
    (favBtnClick E s btn w).2.net.log = w.net.log ++
      [if JSSet.has w.favIds s.id then
          fetchInit E.origin (.withId "/favorites/" s.id) ⟨some "DELETE", none, none⟩
        else
          fetchInit E.origin (.lit "/favorites")
            ⟨some "POST", some [("song_id", .num s.id)], none⟩] := by
  have hlog := toggleRemote_log E s w
  have key : (toggleRemote E s w).1 = .error e ∧ (toggleRemote E s w).2.favIds = w.favIds ∧
      (toggleRemote E s w).2.dom = w.dom := by
    unfold toggleRemote
    cases hhas : JSSet.has w.favIds s.id with
    | true =>
      have h := hdel hhas
      rcases hapi : api E (.withId "/favorites/" s.id) ⟨some "DELETE", none, none⟩ w.net
        with ⟨r, n⟩
      rw [hapi] at h
      dsimp only at h
      subst h
      simp
    | false =>
      have h := hadd hhas
      rcases hapi : api E (.lit "/favorites")
        ⟨some "POST", some [("song_id", .num s.id)], none⟩ w.net with ⟨r, n⟩
      rw [hapi] at h
      dsimp only at h
      subst h
      simp
  unfold favBtnClick
  rcases ht : toggleRemote E s w with ⟨r, w1⟩
  rw [ht] at key hlog
  obtain ⟨k1, k2, k3⟩ := key
  dsimp only at k1 k2 k3 hlog
  subst k1
  exact ⟨rfl, k2, k3, hlog⟩

/-- Instance with a server that answers `/favorites` with a 500. -/
theorem toggle_failure_keeps_mirror_witness :
    (favBtnClick (failingOn (.lit "/favorites")) songA ⟨.songs, 0⟩ bobWorld).1
        = .error "Internal Server Error" ∧
      (favBtnClick (failingOn (.lit "/favorites")) songA ⟨.songs, 0⟩ bobWorld).2.favIds = [] ∧
      (favBtnClick (failingOn (.lit "/favorites")) songA ⟨.songs, 0⟩ bobWorld).2.net.log
        = [fetchInit demoOrigin (.lit "/favorites")
            ⟨some "POST", some [("song_id", .num 1)], none⟩] :=
  have h := toggle_failure_keeps_mirror (failingOn (.lit "/favorites")) songA ⟨.songs, 0⟩
    bobWorld "Internal Server Error" (fun h => absurd h (by decide)) (fun _ => rfl)
  ⟨h.1, h.2.1, h.2.2.2⟩

theorem refreshFavoritesOnly_ok {σ : Type} (E : Env σ) (w : World σ)
    (hok : (refreshFavoritesOnly E w).1 = .ok ()) :
    ∃ fav, (api E (.lit "/favorites") noOpts w.net).1 = .ok (.arr fav) ∧
      (refreshFavoritesOnly E w).2.favIds = JSSet.ofList (fav.map fun x => x.id) ∧
      (refreshFavoritesOnly E w).2.net = (api E (.lit "/favorites") noOpts w.net).2 := by
  unfold refreshFavoritesOnly at hok ⊢
  rcases hapi : api E (.lit "/favorites") noOpts w.net with ⟨r, n⟩
  rw [hapi] at hok
  cases r with
  | error e => simp at hok
  | ok b =>
    cases b with
    | obj u s => simp [Body.asArray] at hok
    | arr l => exact ⟨l, rfl, rfl, rfl⟩

theorem promiseAll_ok (r : FanOut) (a b c p f : Body)
    (h : promiseAll r = .ok (a, b, c, p, f)) :
    r.songs = .ok a ∧ r.queue = .ok b ∧ r.history = .ok c ∧ r.play = .ok p ∧ r.fav = .ok f := by
  unfold promiseAll at h
  obtain ⟨r1, r2, r3, r4, r5⟩ := r
  cases r1 <;> cases r2 <;> cases r3 <;> cases r4 <;> cases r5 <;> simp_all

theorem applyFetched_ok {σ : Type} (E : Env σ) (a b c p f : Body) (w : World σ)
    (hok : (applyFetched E a b c p f w).1 = .ok ()) :
    ∃ fav, f = .arr fav ∧
      (applyFetched E a b c p f w).2.favIds = JSSet.ofList (fav.map fun x => x.id) := by
  unfold applyFetched at hok ⊢
  cases f with
  | obj u s => simp [Body.asArray] at hok
  | arr l =>
    refine ⟨l, rfl, ?_⟩
    simp only [Body.asArray]
    split
    · rfl
    · split <;> rfl

/-- C4: after a successful `refreshFavoritesOnly()`, after a successful run
of the toggle handler (whose last step is that re-fetch), and after a
successful authenticated `refresh()`, `GET /favorites` has returned an array
and `favIds` holds exactly the `id` fields of that array, whatever it held
before. -/
theorem mirror_equals_server_list {σ : Type} (E : Env σ) (s : Song) (btn : BtnRef)
    (w : World σ) :
    ((refreshFavoritesOnly E w).1 = .ok () →
      ∃ fav, (api E (.lit "/favorites") noOpts w.net).1 = .ok (.arr fav) ∧
        ∀ k, JSSet.has (refreshFavoritesOnly E w).2.favIds k = true ↔ k ∈ fav.map Song.id) ∧
    ((favBtnClick E s btn w).1 = .ok () →
      ∃ fav, (api E (.lit "/favorites") noOpts (toggleRemote E s w).2.net).1 = .ok (.arr fav) ∧
        ∀ k, JSSet.has (favBtnClick E s btn w).2.favIds k = true ↔ k ∈ fav.map Song.id) ∧
    (∀ me, (api E (.lit "/me") noOpts w.net).1 = .ok me → truthy me.user = true →
      (refresh E w).1 = .ok () →
      ∃ fav, (fanOut E (api E (.lit "/me") noOpts w.net).2).1.fav = .ok (.arr fav) ∧
        ∀ k, JSSet.has (refresh E w).2.favIds k = true ↔ k ∈ fav.map Song.id) := by
  refine ⟨?_, ?_, ?_⟩
  · intro hok
    obtain ⟨fav, h1, h2, -⟩ := refreshFavoritesOnly_ok E w hok
    refine ⟨fav, h1, fun k => ?_⟩
    rw [h2, jsSet_has_iff, jsSet_mem_ofList]
  · intro hok
    unfold favBtnClick at hok ⊢
    rcases ht : toggleRemote E s w with ⟨r, w1⟩
    rw [ht] at hok
    cases r with
    | error e => simp at hok
    | ok u =>
      dsimp only at hok ⊢
      obtain ⟨fav, h1, h2, -⟩ := refreshFavoritesOnly_ok E _ hok
      refine ⟨fav, h1, fun k => ?_⟩
      rw [h2, jsSet_has_iff, jsSet_mem_ofList]
  · intro me hme htruthy hok
    unfold refresh at hok ⊢
    rcases hapi : api E (.lit "/me") noOpts w.net with ⟨r, n⟩
    rw [hapi] at hok hme
    dsimp only at hme
    subst hme
    simp only [htruthy, Bool.not_true, Bool.false_eq_true, if_false] at hok ⊢
    rcases hs : showAppSurface w.dom with ⟨r1, d⟩
    rw [hs] at hok
    cases r1 with
    | error e => simp at hok
    | ok u =>
      dsimp only at hok ⊢
      rcases hb : setLoginBtn ("Logout (" ++ me.user.getD "" ++ ")") d with ⟨r2, d1⟩
      rw [hb] at hok
      cases r2 with
      | error e => simp at hok
      | ok u2 =>
        dsimp only at hok ⊢
        cases hall : promiseAll (fanOut E n).1 with
        | error e => rw [hall] at hok; simp at hok
        | ok t =>
          obtain ⟨a, b, c, p, f⟩ := t
          rw [hall] at hok
          dsimp only at hok ⊢
          obtain ⟨fav, hf, hids⟩ := applyFetched_ok E a b c p f _ hok
          obtain ⟨-, -, -, -, h5⟩ := promiseAll_ok _ a b c p f hall
          refine ⟨fav, by rw [h5, hf], fun k => ?_⟩
          rw [hids, jsSet_has_iff, jsSet_mem_ofList]

/-- Instance on the sample page of `bob`, whose only favourite on the server is song 5. -/
theorem mirror_equals_server_list_witness :
    (∀ k, JSSet.has (refreshFavoritesOnly demoEnv bobWorld).2.favIds k = true ↔
        k ∈ [songB].map Song.id) ∧
      (∀ k, JSSet.has (favBtnClick demoEnv songA ⟨.songs, 0⟩ bobWorld).2.favIds k = true ↔
        k ∈ [songA, songB].map Song.id) ∧
      (∀ k, JSSet.has (refresh demoEnv bobWorld).2.favIds k = true ↔
        k ∈ [songB].map Song.id) :=
  have h := mirror_equals_server_list demoEnv songA ⟨.songs, 0⟩ bobWorld
  ⟨by
      obtain ⟨fav, h1, h2⟩ := h.1 rfl
      have : fav = [songB] := by
        have h3 : (Except.ok (Body.arr [songB]) : Except String Body) = .ok (.arr fav) := h1
        injection h3 with h4
        injection h4 with h5
        exact h5.symm
      subst this
      exact h2,
    by
      obtain ⟨fav, h1, h2⟩ := h.2.1 rfl
      have : fav = [songA, songB] := by
        have h3 : (Except.ok (Body.arr [songA, songB]) : Except String Body) = .ok (.arr fav) := h1
        injection h3 with h4
        injection h4 with h5
        exact h5.symm
      subst this
      exact h2,
    by
      obtain ⟨fav, h1, h2⟩ := h.2.2 (.obj (some "bob") none) rfl rfl rfl
      have : fav = [songB] := by
        have h3 : (Except.ok (Body.arr [songB]) : Except String Body) = .ok (.arr fav) := h1
        injection h3 with h4
        injection h4 with h5
        exact h5.symm
      subst this
      exact h2⟩

theorem sameContent_trans {a b c : Dom} (h1 : SameContent a b) (h2 : SameContent b c) :
    SameContent a c := by
  obtain ⟨a1, a2, a3, a4, a5, a6, a7, a8⟩ := h1
  obtain ⟨b1, b2, b3, b4, b5, b6, b7, b8⟩ := h2
  exact ⟨b1.trans a1, b2.trans a2, b3.trans a3, b4.trans a4, b5.trans a5, b6.trans a6,
    b7.trans a7, b8.trans a8⟩

theorem showAppSurface_content (d : Dom) : SameContent d (showAppSurface d).2 := by
  unfold showAppSurface
  repeat' (first | split | dsimp only)
  all_goals exact ⟨rfl, rfl, rfl, rfl, rfl, rfl, rfl, rfl⟩

theorem setLoginBtn_content (t : String) (d : Dom) : SameContent d (setLoginBtn t d).2 := by
  unfold setLoginBtn
  split <;> exact ⟨rfl, rfl, rfl, rfl, rfl, rfl, rfl, rfl⟩

theorem promiseAll_error (r : FanOut)
    (h : (∃ e, r.songs = .error e) ∨ (∃ e, r.queue = .error e) ∨ (∃ e, r.history = .error e) ∨
      (∃ e, r.play = .error e) ∨ (∃ e, r.fav = .error e)) :
    ∃ e, promiseAll r = .error e := by
  unfold promiseAll
  obtain ⟨r1, r2, r3, r4, r5⟩ := r
  cases r1 <;> cases r2 <;> cases r3 <;> cases r4 <;> cases r5 <;> simp_all

/-- C9: in an authenticated `refresh()`, when one of the five fetches of the
fan-out fails, `refresh()` fails and nothing of what the others returned is
applied: `favIds`, the seven render targets, the now-playing label and the
audio element are as before the refresh. -/
theorem refresh_fanout_failure_applies_nothing {σ : Type} (E : Env σ) (w : World σ) (me : Body)
    (hme : (api E (.lit "/me") noOpts w.net).1 = .ok me) (hauth : truthy me.user = true)
    (hfail :
      (∃ e, (fanOut E (api E (.lit "/me") noOpts w.net).2).1.songs = .error e) ∨
      (∃ e, (fanOut E (api E (.lit "/me") noOpts w.net).2).1.queue = .error e) ∨
      (∃ e, (fanOut E (api E (.lit "/me") noOpts w.net).2).1.history = .error e) ∨
      (∃ e, (fanOut E (api E (.lit "/me") noOpts w.net).2).1.play = .error e) ∨
      (∃ e, (fanOut E (api E (.lit "/me") noOpts w.net).2).1.fav = .error e)) :
    (∃ e, (refresh E w).1 = .error e) ∧
    (refresh E w).2.favIds = w.favIds ∧
    SameContent w.dom (refresh E w).2.dom := by
  obtain ⟨e0, hall⟩ := promiseAll_error _ hfail
  unfold refresh
  rcases hapi : api E (.lit "/me") noOpts w.net with ⟨r, n⟩
  rw [hapi] at hme hall
  dsimp only at hme hall
  subst hme
  simp only [hauth, Bool.not_true, Bool.false_eq_true, if_false]
  have h1 := showAppSurface_content w.dom
  rcases hs : showAppSurface w.dom with ⟨r1, d⟩
  rw [hs] at h1
  cases r1 with
  | error e => exact ⟨⟨e, rfl⟩, rfl, h1⟩
  | ok u =>
    dsimp only at h1 ⊢
    have h2 := setLoginBtn_content ("Logout (" ++ me.user.getD "" ++ ")") d
    rcases hb : setLoginBtn ("Logout (" ++ me.user.getD "" ++ ")") d with ⟨r2, d1⟩
    rw [hb] at h2
    cases r2 with
    | error e => exact ⟨⟨e, rfl⟩, rfl, sameContent_trans h1 h2⟩
    | ok u2 =>
      dsimp only at h2 ⊢
      rw [hall]
      exact ⟨⟨e0, rfl⟩, rfl, sameContent_trans h1 h2⟩

/-- Instance with a server that answers `/history` with a 500. -/
theorem refresh_fanout_failure_applies_nothing_witness :
    (∃ e, (refresh (failingOn (.lit "/history")) bobWorld).1 = .error e) ∧
      (refresh (failingOn (.lit "/history")) bobWorld).2.favIds = bobWorld.favIds ∧
      SameContent bobWorld.dom (refresh (failingOn (.lit "/history")) bobWorld).2.dom :=
  refresh_fanout_failure_applies_nothing (failingOn (.lit "/history")) bobWorld
    (.obj (some "bob") none) rfl rfl
    (Or.inr (Or.inr (Or.inl ⟨"Internal Server Error", rfl⟩)))

/-- C10, counterexample: called with options that carry their own `headers`,
`api` sends exactly those headers; the JSON content type is not among them. -/
theorem api_caller_headers_drop_content_type :
    (api demoEnv (.lit "/songs") tracedPost bobWorld.net).2.log =
        [{ base := demoOrigin, path := .lit "/songs", method := some "POST", body := none,
           headers := [("X-Trace", "1")] }] ∧
      ("Content-Type", "application/json") ∉ [("X-Trace", "1")] := by
  constructor
  · rfl
  · decide

/-- C10, amended: `api(path, opts)` sends one request, to `origin + path`,
in which `method` and `body` are the caller's; its headers are the caller's
`headers` when `opts` has that field, and `Content-Type: application/json`
when it has not. -/
theorem api_request_shape {σ : Type} (E : Env σ) (path : Path) (opts : Opts) (n : Net σ) :
    ∃ req : Request, (api E path opts n).2.log = n.log ++ [req] ∧
      req.url = E.origin ++ path.render ∧
      req.method = opts.method ∧ req.body = opts.body ∧
      (opts.headers = none → req.headers = [("Content-Type", "application/json")]) ∧
      (∀ h, opts.headers = some h → req.headers = h) := by
  refine ⟨fetchInit E.origin path opts, api_log E path opts n, rfl, rfl, rfl, ?_, ?_⟩
  · intro h; simp [fetchInit, h]
  · intro h hh; simp [fetchInit, hh]

/-- Instance for the logout call, which passes a method and no headers. -/
theorem api_request_shape_witness :
    ∃ req : Request,
      (api demoEnv (.lit "/logout") ⟨some "POST", none, none⟩ bobWorld.net).2.log = [req] ∧
      req.method = some "POST" ∧ req.headers = [("Content-Type", "application/json")] := by
  obtain ⟨req, h1, -, h3, -, h5, -⟩ :=
    api_request_shape demoEnv (.lit "/logout") ⟨some "POST", none, none⟩ bobWorld.net
  exact ⟨req, h1, h3, h5 rfl⟩

theorem stopPlayer_username (d : Dom) :
    (stopPlayer d).loginScreenUsername = d.loginScreenUsername := by
  unfold stopPlayer
  split <;> rfl

theorem prefill_username (r : Option String) (d : Dom) (v : String)
    (hv : d.loginScreenUsername = some v) :
    (prefill r d).loginScreenUsername = some (if truthy r then r.getD "" else v) := by
  unfold prefill
  simp only [hv]
  cases ht : truthy r with
  | false => simp [hv]
  | true =>
    simp only [if_true]
    by_cases h : (r.getD "" != "" && v != r.getD "") = true
    · simp [h]
    · simp only [h, Bool.false_eq_true, if_false, hv]
      cases r with
      | none => simp [truthy] at ht
      | some s =>
        simp only [truthy] at ht
        simp only [Option.getD_some, ht, Bool.true_and, bne_iff_ne, ne_eq, Decidable.not_not] at h
        simp [h]

/-- C7, counterexample: with `bob` remembered and `alice` typed into the
username field, an anonymous `refresh()` returns with the field holding
`bob`: the typed value is overwritten. -/
theorem prefill_clobbers_typed_input :
    typedWorld.dom.loginScreenUsername = some "alice" ∧
      (refresh demoEnv typedWorld).1 = .ok () ∧
      (refresh demoEnv typedWorld).2.dom.loginScreenUsername = some "bob" := by
  refine ⟨rfl, rfl, rfl⟩

/-- C7, amended: on an anonymous `refresh()` of a page that has the three
surfaces and the header button, the username field ends up holding the
remembered identity whenever one is remembered and not empty, whatever the
field held before; only when nothing (or the empty string) is remembered is
the field left as it was. -/
theorem prefill_sets_field_to_remembered {σ : Type} (E : Env σ) (w : World σ) (me : Body)
    (v : String)
    (hme : (api E (.lit "/me") noOpts w.net).1 = .ok me) (hanon : truthy me.user = false)
    (h1 : w.dom.loginScreen ≠ none) (h2 : w.dom.appHeader ≠ none)
    (h3 : w.dom.appRoot ≠ none) (h4 : w.dom.loginBtn ≠ none)
    (hv : w.dom.loginScreenUsername = some v) :
    (refresh E w).1 = .ok () ∧
    (∀ r, getRememberedUser w.store = some r → r ≠ "" →
      (refresh E w).2.dom.loginScreenUsername = some r) ∧
    (truthy (getRememberedUser w.store) = false →
      (refresh E w).2.dom.loginScreenUsername = some v) := by
  unfold refresh
  rcases hapi : api E (.lit "/me") noOpts w.net with ⟨r, n⟩
  rw [hapi] at hme
  dsimp only at hme
  subst hme
  simp only [hanon, Bool.not_false, if_true]
  obtain ⟨d1, hd1, hbtn, -, huser⟩ := showLoginSurface_ok w.dom h1 h2 h3
  rw [hd1]
  dsimp only
  unfold setLoginBtn
  cases hb : d1.loginBtn with
  | none => rw [hbtn] at hb; exact absurd hb h4
  | some b =>
    dsimp only
    have hfield := prefill_username (getRememberedUser w.store)
      { d1 with loginBtn := some "Login" } v (by rw [← hv, ← huser])
    rw [← stopPlayer_username] at hfield
    refine ⟨rfl, ?_, ?_⟩
    · intro r hr hne
      rw [hfield, hr]
      simp [truthy, hne]
    · intro hf
      rw [hfield, hf]
      simp

/-- Instances with `bob` remembered and with nothing remembered. -/
theorem prefill_sets_field_to_remembered_witness :
    (refresh demoEnv typedWorld).1 = .ok () ∧
      (refresh demoEnv typedWorld).2.dom.loginScreenUsername = some "bob" ∧
      (refresh demoEnv loggedOutWorld).2.dom.loginScreenUsername = some "" :=
  have h := prefill_sets_field_to_remembered demoEnv typedWorld (.obj none none) "alice"
    rfl rfl (by decide) (by decide) (by decide) (by decide) rfl
  have g := prefill_sets_field_to_remembered demoEnv loggedOutWorld (.obj none none) ""
    rfl rfl (by decide) (by decide) (by decide) (by decide) rfl
  ⟨h.1, h.2.1 "bob" rfl (by decide), g.2.2 rfl⟩

theorem showLoginSurface_username (d : Dom) :
    (showLoginSurface d).2.loginScreenUsername = d.loginScreenUsername := by
  unfold showLoginSurface
  repeat' (first | split | dsimp only)

theorem showAppSurface_username (d : Dom) :
    (showAppSurface d).2.loginScreenUsername = d.loginScreenUsername := by
  unfold showAppSurface
  repeat' (first | split | dsimp only)

theorem setLoginBtn_username (t : String) (d : Dom) :
    (setLoginBtn t d).2.loginScreenUsername = d.loginScreenUsername := by
  unfold setLoginBtn
  split <;> rfl

theorem prefill_username_of_falsy (r : Option String) (d : Dom) (h : truthy r = false) :
    (prefill r d).loginScreenUsername = d.loginScreenUsername := by
  unfold prefill
  simp only [h]
  split
  · rfl
  · simp

theorem renderPrimary_username (f : List Nat) (a b c : Body) (d : Dom) :
    (renderPrimary f a b c d).2.loginScreenUsername = d.loginScreenUsername := by
  unfold renderPrimary
  repeat' (first | split | dsimp only)

theorem setPlayer_username {σ : Type} (E : Env σ) (song : Option Song) (b : Bool) (d : Dom) :
    (setPlayer E song b d).loginScreenUsername = d.loginScreenUsername := by
  unfold setPlayer
  repeat' (first | split | dsimp only)

theorem renderFavoritesList_username (f : List Nat) (l : List Song) (d : Dom) :
    (renderFavoritesList f l d).loginScreenUsername = d.loginScreenUsername := by
  unfold renderFavoritesList
  split <;> rfl

theorem renderQueueOnly_username (f : List Nat) (l : List Song) (d : Dom) :
    (renderQueueOnly f l d).loginScreenUsername = d.loginScreenUsername := by
  unfold renderQueueOnly
  split <;> rfl

theorem renderHistoryOnly_username (f : List Nat) (l : List Song) (d : Dom) :
    (renderHistoryOnly f l d).loginScreenUsername = d.loginScreenUsername := by
  unfold renderHistoryOnly
  split <;> rfl

theorem applyFetched_frame {σ : Type} (E : Env σ) (a b c p f : Body) (w : World σ) :
    (applyFetched E a b c p f w).2.net = w.net ∧
    (applyFetched E a b c p f w).2.store = w.store ∧
    (applyFetched E a b c p f w).2.dom.loginScreenUsername = w.dom.loginScreenUsername := by
  unfold applyFetched
  split
  · exact ⟨rfl, rfl, rfl⟩
  · rename_i favL _
    dsimp only
    have hp := renderPrimary_username (JSSet.ofList (List.map (fun x => x.id) favL)) a b c w.dom
    rcases hr : renderPrimary (JSSet.ofList (List.map (fun x => x.id) favL)) a b c w.dom
      with ⟨r, d⟩
    rw [hr] at hp ⊢
    dsimp only at hp
    cases r with
    | error e => exact ⟨rfl, rfl, hp⟩
    | ok t =>
      obtain ⟨qs, hs⟩ := t
      dsimp only
      split
      · exact ⟨rfl, rfl, hp⟩
      · refine ⟨rfl, rfl, ?_⟩
        simp only [renderHistoryOnly_username, renderQueueOnly_username,
          renderFavoritesList_username, setPlayer_username]
        exact hp

theorem fanOut_log {σ : Type} (E : Env σ) (n : Net σ) :
    (fanOut E n).2.log = n.log ++
      [fetchInit E.origin (.lit "/songs") noOpts, fetchInit E.origin (.lit "/queue") noOpts,
       fetchInit E.origin (.lit "/history") noOpts, fetchInit E.origin (.lit "/play") noOpts,
       fetchInit E.origin (.lit "/favorites") noOpts] := by
  unfold fanOut
  simp [api_log]

theorem refresh_frame {σ : Type} (E : Env σ) (w : World σ) :
    (refresh E w).2.store = w.store ∧
    ((refresh E w).2.net = (api E (.lit "/me") noOpts w.net).2 ∨
      (refresh E w).2.net = (fanOut E (api E (.lit "/me") noOpts w.net).2).2) ∧
    (truthy (getRememberedUser w.store) = false →
      (refresh E w).2.dom.loginScreenUsername = w.dom.loginScreenUsername) := by
  unfold refresh
  rcases hapi : api E (.lit "/me") noOpts w.net with ⟨r, n⟩
  cases r with
  | error e => exact ⟨rfl, Or.inl rfl, fun _ => rfl⟩
  | ok me =>
    dsimp only
    split
    · have h1 := showLoginSurface_username w.dom
      rcases hs : showLoginSurface w.dom with ⟨r1, d⟩
      rw [hs] at h1
      cases r1 with
      | error e => exact ⟨rfl, Or.inl rfl, fun _ => h1⟩
      | ok u =>
        dsimp only at h1 ⊢
        have h2 := setLoginBtn_username "Login" d
        rcases hb : setLoginBtn "Login" d with ⟨r2, d1⟩
        rw [hb] at h2
        cases r2 with
        | error e => exact ⟨rfl, Or.inl rfl, fun _ => h2.trans h1⟩
        | ok u2 =>
          dsimp only at h2 ⊢
          refine ⟨rfl, Or.inl rfl, fun hf => ?_⟩
          rw [stopPlayer_username, prefill_username_of_falsy _ _ hf, h2, h1]
    · have h1 := showAppSurface_username w.dom
      rcases hs : showAppSurface w.dom with ⟨r1, d⟩
      rw [hs] at h1
      cases r1 with
      | error e => exact ⟨rfl, Or.inl rfl, fun _ => h1⟩
      | ok u =>
        dsimp only at h1 ⊢
        have h2 := setLoginBtn_username ("Logout (" ++ me.user.getD "" ++ ")") d
        rcases hb : setLoginBtn ("Logout (" ++ me.user.getD "" ++ ")") d with ⟨r2, d1⟩
        rw [hb] at h2
        cases r2 with
        | error e => exact ⟨rfl, Or.inl rfl, fun _ => h2.trans h1⟩
        | ok u2 =>
          dsimp only at h2 ⊢
          cases hall : promiseAll (fanOut E n).1 with
          | error e => exact ⟨rfl, Or.inr rfl, fun _ => h2.trans h1⟩
          | ok t =>
            obtain ⟨a, b, c, p, f⟩ := t
            dsimp only
            obtain ⟨g1, g2, g3⟩ := applyFetched_frame E a b c p f
              { w with net := (fanOut E n).2, dom := d1 }
            exact ⟨g2, Or.inr g1, fun _ => g3.trans (h2.trans h1)⟩

theorem refresh_no_login_call {σ : Type} (E : Env σ) (w : World σ) :
    (refresh E w).2.net.log.filter isLoginCall = w.net.log.filter isLoginCall := by
  obtain ⟨-, h, -⟩ := refresh_frame E w
  rcases h with h | h
  · rw [h, api_log]
    simp [isLoginCall, fetchInit]
  · rw [h, fanOut_log, api_log]
    simp [isLoginCall, fetchInit]

theorem getRememberedUser_clear (st : Storage) :
    getRememberedUser (clearRememberedUser st) = none := by
  unfold getRememberedUser clearRememberedUser
  cases h : st.available <;> simp [h]

theorem getRememberedUser_set (st : Storage) (u : String) (hav : st.available = true)
    (hu : u ≠ "") : getRememberedUser (setRememberedUser (some u) st) = some u := by
  simp [getRememberedUser, setRememberedUser, hav, truthy, hu]

theorem loginSubmit_store {σ : Type} (E : Env σ) (w : World σ) (v : String)
    (hfield : w.dom.loginScreenUsername = some v) (hrem : w.dom.rememberMe = some true)
    (hne : jsTrim v ≠ "")
    (hlogin : ∃ b, (api E (.lit "/login")
      ⟨some "POST", some [("username", .str (jsTrim v))], none⟩ w.net).1 = .ok b) :
    (loginSubmit E w).2.store = setRememberedUser (some (jsTrim v)) w.store := by
  obtain ⟨b, hb⟩ := hlogin
  unfold loginSubmit
  simp only [hfield, hrem]
  have hne2 : (jsTrim v == "") = false := by simpa using hne
  simp only [hne2, Bool.false_eq_true, if_false, if_true]
  rcases hapi : api E (.lit "/login")
    ⟨some "POST", some [("username", .str (jsTrim v))], none⟩ w.net with ⟨r, n⟩
  rw [hapi] at hb
  dsimp only at hb
  subst hb
  dsimp only
  exact (refresh_frame E _).1

theorem loginBtnClick_logout {σ : Type} (E : Env σ) (w : World σ) (me : Body)
    (hme : (api E (.lit "/me") noOpts w.net).1 = .ok me) (hauth : truthy me.user = true)
    (hlogout : ∃ b, (api E (.lit "/logout") ⟨some "POST", none, none⟩
      (api E (.lit "/me") noOpts w.net).2).1 = .ok b) :
    getRememberedUser (loginBtnClick E w).2.store = none ∧
    (loginBtnClick E w).2.dom.loginScreenUsername = w.dom.loginScreenUsername ∧
    (loginBtnClick E w).2.net.log.filter isLoginCall = w.net.log.filter isLoginCall := by
  obtain ⟨b, hb⟩ := hlogout
  have hlog1 := api_log E (.lit "/me") noOpts w.net
  unfold loginBtnClick
  rcases hapi : api E (.lit "/me") noOpts w.net with ⟨r, n⟩
  rw [hapi] at hme hb hlog1
  dsimp only at hme hb hlog1
  subst hme
  simp only [hauth, if_true]
  have hlog2 := api_log E (.lit "/logout") ⟨some "POST", none, none⟩ n
  rcases hapi2 : api E (.lit "/logout") ⟨some "POST", none, none⟩ n with ⟨r2, n1⟩
  rw [hapi2] at hb hlog2
  dsimp only at hb hlog2
  subst hb
  dsimp only
  have hfilter : n1.log.filter isLoginCall = w.net.log.filter isLoginCall := by
    rw [hlog2, hlog1]
    simp [isLoginCall, fetchInit]
  have h1 := showLoginSurface_username w.dom
  rcases hs : showLoginSurface w.dom with ⟨r1, d⟩
  rw [hs] at h1
  cases r1 with
  | error e => exact ⟨getRememberedUser_clear _, h1, hfilter⟩
  | ok u =>
    dsimp only at h1 ⊢
    cases hu : d.loginScreenUsername with
    | none => exact ⟨getRememberedUser_clear _, by rw [← h1, hu], hfilter⟩
    | some x =>
      dsimp only
      obtain ⟨g1, -, g3⟩ := refresh_frame E
        { w with net := n1, store := clearRememberedUser w.store, dom := stopPlayer d }
      refine ⟨?_, ?_, ?_⟩
      · rw [g1]; exact getRememberedUser_clear _
      · rw [g3 (by dsimp only; rw [getRememberedUser_clear]; rfl)]
        dsimp only
        rw [stopPlayer_username, h1]
      · rw [refresh_no_login_call]
        exact hfilter

/-- C8, counterexample: `bob` logs in with "remember me" checked, so the
store yields `bob`; he reloads and logs out through the header button; after
that logout the store yields nothing and the username field is still empty. -/
theorem logout_forgets_remembered_user :
    getRememberedUser (loginSubmit demoEnv loginWorld).2.store = some "bob" ∧
      getRememberedUser bobRemembered.store = some "bob" ∧
      bobRemembered.dom.loginScreenUsername = some "" ∧
      (loginBtnClick demoEnv bobRemembered).1 = .ok () ∧
      getRememberedUser (loginBtnClick demoEnv bobRemembered).2.store = none ∧
      (loginBtnClick demoEnv bobRemembered).2.dom.loginScreenUsername = some "" := by
  refine ⟨?_, ?_, ?_, ?_, ?_, ?_⟩ <;> rfl

/-- C8, amended: when the login form is submitted with a username that is
not empty after trimming and "remember me" checked, `POST /login` succeeds
and `localStorage` works, `getRememberedUser()` returns the trimmed username.
A later logout through the header button (session still valid, `POST /logout`
succeeds) clears the store: afterwards `getRememberedUser()` returns nothing,
the username field is what it was before the click (it is not prefilled), and
no request to `/login` has been sent. -/
theorem remember_me_until_logout {σ : Type} (E : Env σ) (w w1 : World σ) (v : String)
    (me : Body)
    (hfield : w.dom.loginScreenUsername = some v) (hrem : w.dom.rememberMe = some true)
    (hne : jsTrim v ≠ "") (hav : w.store.available = true)
    (hlogin : ∃ b, (api E (.lit "/login")
      ⟨some "POST", some [("username", .str (jsTrim v))], none⟩ w.net).1 = .ok b)
    (hstore : w1.store = (loginSubmit E w).2.store)
    (hme : (api E (.lit "/me") noOpts w1.net).1 = .ok me) (hauth : truthy me.user = true)
    (hlogout : ∃ b, (api E (.lit "/logout") ⟨some "POST", none, none⟩
      (api E (.lit "/me") noOpts w1.net).2).1 = .ok b) :
    getRememberedUser w1.store = some (jsTrim v) ∧
    getRememberedUser (loginBtnClick E w1).2.store = none ∧
    (loginBtnClick E w1).2.dom.loginScreenUsername = w1.dom.loginScreenUsername ∧
    (loginBtnClick E w1).2.net.log.filter isLoginCall = w1.net.log.filter isLoginCall := by
  refine ⟨?_, loginBtnClick_logout E w1 me hme hauth hlogout⟩
  rw [hstore, loginSubmit_store E w v hfield hrem hne hlogin]
  exact getRememberedUser_set _ _ hav hne

/-- Instance for `bob`, who logs in, reloads and logs out. -/
theorem remember_me_until_logout_witness :
    getRememberedUser bobRemembered.store = some "bob" ∧
      getRememberedUser (loginBtnClick demoEnv bobRemembered).2.store = none ∧
      (loginBtnClick demoEnv bobRemembered).2.dom.loginScreenUsername
        = bobRemembered.dom.loginScreenUsername ∧
      (loginBtnClick demoEnv bobRemembered).2.net.log.filter isLoginCall
        = bobRemembered.net.log.filter isLoginCall :=
  remember_me_until_logout demoEnv loginWorld bobRemembered "bob" (.obj (some "bob") none)
    rfl rfl (by decide) rfl ⟨.obj (some "bob") none, rfl⟩ rfl rfl rfl ⟨.obj none none, rfl⟩

theorem setPlayer_idempotent_of_absolute {σ : Type} (E : Env σ) (song : Option Song)
    (url : String) (d : Dom) (hsong : playable song = some url)
    (habs : E.resolveURL url = url) :
    setPlayer E song false (setPlayer E song false d) = setPlayer E song false d := by
  unfold setPlayer
  cases hp : d.player with
  | none => simp [hp]
  | some p =>
    simp only [hsong, Bool.false_eq_true, if_false]
    by_cases h : (p.srcProp E.resolveURL != url) = true
    · have h2 : ((p.assignSrc url).srcProp E.resolveURL != url) = false := by
        simp [Player.srcProp, Player.assignSrc, habs]
      simp only [h, if_true, h2, Bool.false_eq_true, if_false]
    · simp only [h, Bool.false_eq_true, if_false]

/-- C6: the second of two calls `setPlayer(song, false)` is not a no-op when
`audio_url` is a path on the application's own origin.  The element reports
its `src` in absolute form, the guard compares that with the raw
`audio_url`, finds them different, and assigns the source again: the second
call restarts loading. -/
theorem setPlayer_twice_reloads_relative_src :
    (setPlayer demoEnv (some songA) false (pageWith "" freshPlayer)).player
        = some ⟨some "/media/aria.mp3", true, [.load "/media/aria.mp3"]⟩ ∧
      (setPlayer demoEnv (some songA) false
          (setPlayer demoEnv (some songA) false (pageWith "" freshPlayer))).player
        = some ⟨some "/media/aria.mp3", true,
            [.load "/media/aria.mp3", .load "/media/aria.mp3"]⟩ := by
  constructor <;> rfl

theorem mem_favoritesOf (st : ServerState) (k : Nat) :
    k ∈ (favoritesOf st).map Song.id ↔ (∃ s ∈ st.songs, s.id = k) ∧ k ∈ st.favs := by
  simp only [favoritesOf, List.mem_map, List.mem_filter, jsSet_has_iff]
  constructor
  · rintro ⟨s, ⟨hs, hf⟩, rfl⟩
    exact ⟨⟨s, hs, rfl⟩, hf⟩
  · rintro ⟨⟨s, hs, rfl⟩, hf⟩
    exact ⟨s, ⟨hs, hf⟩, rfl⟩

theorem favBtnClick_ref (o : String) (r : String → String) (s : Song) (btn : BtnRef)
    (w : World ServerState) :
    (favBtnClick (refEnv o r) s btn w).1 = .ok () ∧
    (favBtnClick (refEnv o r) s btn w).2.net.srv.favs =
      (if JSSet.has w.favIds s.id then JSSet.delete w.net.srv.favs s.id
        else JSSet.add w.net.srv.favs s.id) ∧
    (favBtnClick (refEnv o r) s btn w).2.favIds =
      JSSet.ofList ((favoritesOf (favBtnClick (refEnv o r) s btn w).2.net.srv).map Song.id) ∧
    (favBtnClick (refEnv o r) s btn w).2.net.srv.songs = w.net.srv.songs := by
  unfold favBtnClick toggleRemote
  cases hhas : JSSet.has w.favIds s.id with
  | true => exact ⟨rfl, rfl, rfl, rfl⟩
  | false => exact ⟨rfl, rfl, rfl, rfl⟩

/-- C5, counterexample: song 1 is valid and not in the mirror, the toggle
succeeds, and yet an id other than 1 changes in the mirror: id 5, which the
mirror held and the server's set did not, is gone after the toggle. -/
theorem toggle_drops_stale_id_from_mirror :
    songA ∈ staleWorld.net.srv.songs ∧
      JSSet.has staleWorld.favIds songA.id = false ∧
      (favBtnClick demoEnv songA ⟨.songs, 0⟩ staleWorld).1 = .ok () ∧
      (5 : Nat) ≠ songA.id ∧
      JSSet.has staleWorld.favIds 5 = true ∧
      JSSet.has (favBtnClick demoEnv songA ⟨.songs, 0⟩ staleWorld).2.favIds 5 = false := by
  refine ⟨by decide, rfl, rfl, by decide, rfl, rfl⟩

/-- C5, amended: against the modelled server, for a song `s` whose id is the
id of a song of the server's list and is not in the mirror, whatever else the
mirror holds: a first run of the toggle handler succeeds and leaves `s.id`
in the mirror and in the server's set, a second run succeeds and leaves
`s.id` in neither, and every other id is in the server's set after each run
exactly when it was before.  Every other id is in the mirror after each run
exactly when it is in the server's favourites list; so it is unchanged in
the mirror when mirror and list agreed about it before the first run. -/
theorem favorites_round_trip (o : String) (r : String → String) (w : World ServerState)
    (s : Song) (b1 b2 : BtnRef)
    (hvalid : ∃ t ∈ w.net.srv.songs, t.id = s.id)
    (hnot : JSSet.has w.favIds s.id = false) :
    ((favBtnClick (refEnv o r) s b1 w).1 = .ok () ∧
      JSSet.has (favBtnClick (refEnv o r) s b1 w).2.favIds s.id = true ∧
      JSSet.has (favBtnClick (refEnv o r) s b1 w).2.net.srv.favs s.id = true) ∧
    ((favBtnClick (refEnv o r) s b2 (favBtnClick (refEnv o r) s b1 w).2).1 = .ok () ∧
      JSSet.has (favBtnClick (refEnv o r) s b2 (favBtnClick (refEnv o r) s b1 w).2).2.favIds s.id
        = false ∧
      JSSet.has (favBtnClick (refEnv o r) s b2 (favBtnClick (refEnv o r) s b1 w).2).2.net.srv.favs
        s.id = false) ∧
    (∀ k, k ≠ s.id →
      (JSSet.has (favBtnClick (refEnv o r) s b1 w).2.net.srv.favs k
          = JSSet.has w.net.srv.favs k ∧
        JSSet.has (favBtnClick (refEnv o r) s b2 (favBtnClick (refEnv o r) s b1 w).2).2.net.srv.favs
          k = JSSet.has w.net.srv.favs k) ∧
      ((JSSet.has (favBtnClick (refEnv o r) s b1 w).2.favIds k = true ↔
          k ∈ (favoritesOf w.net.srv).map Song.id) ∧
        (JSSet.has (favBtnClick (refEnv o r) s b2 (favBtnClick (refEnv o r) s b1 w).2).2.favIds k
          = true ↔ k ∈ (favoritesOf w.net.srv).map Song.id)) ∧
      ((JSSet.has w.favIds k = true ↔ k ∈ (favoritesOf w.net.srv).map Song.id) →
        JSSet.has (favBtnClick (refEnv o r) s b1 w).2.favIds k = JSSet.has w.favIds k ∧
        JSSet.has (favBtnClick (refEnv o r) s b2 (favBtnClick (refEnv o r) s b1 w).2).2.favIds k
          = JSSet.has w.favIds k)) := by
  obtain ⟨a1, a2, a3, a4⟩ := favBtnClick_ref o r s b1 w
  obtain ⟨c1, c2, c3, c4⟩ := favBtnClick_ref o r s b2 (favBtnClick (refEnv o r) s b1 w).2
  generalize favBtnClick (refEnv o r) s b1 w = x1 at *
  generalize favBtnClick (refEnv o r) s b2 x1.2 = x2 at *
  simp only [hnot, Bool.false_eq_true, if_false] at a2
  have m1 : ∀ k, k ∈ x1.2.favIds ↔
      (∃ t ∈ w.net.srv.songs, t.id = k) ∧ (k ∈ w.net.srv.favs ∨ k = s.id) := by
    intro k
    rw [a3, jsSet_mem_ofList, mem_favoritesOf, a2, a4, jsSet_mem_add]
  have hin1 : JSSet.has x1.2.favIds s.id = true := by
    rw [jsSet_has_iff, m1]
    exact ⟨hvalid, Or.inr rfl⟩
  simp only [hin1, if_true] at c2
  have m2 : ∀ k, k ∈ x2.2.favIds ↔
      (∃ t ∈ w.net.srv.songs, t.id = k) ∧ ((k ∈ w.net.srv.favs ∨ k = s.id) ∧ k ≠ s.id) := by
    intro k
    rw [c3, jsSet_mem_ofList, mem_favoritesOf, c2, c4, a4, jsSet_mem_delete, a2, jsSet_mem_add]
  refine ⟨⟨a1, hin1, ?_⟩, ⟨c1, ?_, ?_⟩, ?_⟩
  · rw [jsSet_has_iff, a2, jsSet_mem_add]; exact Or.inr rfl
  · rw [jsSet_has_eq_false_iff, m2]; tauto
  · rw [jsSet_has_eq_false_iff, c2, jsSet_mem_delete]; tauto
  · intro k hk
    have e1 : JSSet.has x1.2.favIds k = true ↔ k ∈ (favoritesOf w.net.srv).map Song.id := by
      rw [jsSet_has_iff, m1, mem_favoritesOf]; tauto
    have e2 : JSSet.has x2.2.favIds k = true ↔ k ∈ (favoritesOf w.net.srv).map Song.id := by
      rw [jsSet_has_iff, m2, mem_favoritesOf]; tauto
    refine ⟨⟨?_, ?_⟩, ⟨e1, e2⟩, ?_⟩
    · rw [Bool.eq_iff_iff, jsSet_has_iff, jsSet_has_iff, a2, jsSet_mem_add]; tauto
    · rw [Bool.eq_iff_iff, jsSet_has_iff, jsSet_has_iff, c2, jsSet_mem_delete, a2,
        jsSet_mem_add]; tauto
    · intro hagree
      exact ⟨by rw [Bool.eq_iff_iff, e1, hagree], by rw [Bool.eq_iff_iff, e2, hagree]⟩

/-- Instance for song 1 on the page of `bob`, whose mirror and server set
both hold id 5: song 1 goes in and out again, id 5 stays in both. -/
theorem favorites_round_trip_witness :
    (JSSet.has (favBtnClick demoEnv songA ⟨.songs, 0⟩ bobSynced).2.favIds 1 = true ∧
        JSSet.has (favBtnClick demoEnv songA ⟨.songs, 0⟩ bobSynced).2.net.srv.favs 1 = true) ∧
      (JSSet.has (favBtnClick demoEnv songA ⟨.favorites, 0⟩
          (favBtnClick demoEnv songA ⟨.songs, 0⟩ bobSynced).2).2.favIds 1 = false ∧
        JSSet.has (favBtnClick demoEnv songA ⟨.favorites, 0⟩
          (favBtnClick demoEnv songA ⟨.songs, 0⟩ bobSynced).2).2.net.srv.favs 1 = false) ∧
      (JSSet.has (favBtnClick demoEnv songA ⟨.songs, 0⟩ bobSynced).2.net.srv.favs 5
          = JSSet.has bobSynced.net.srv.favs 5 ∧
        JSSet.has (favBtnClick demoEnv songA ⟨.favorites, 0⟩
          (favBtnClick demoEnv songA ⟨.songs, 0⟩ bobSynced).2).2.net.srv.favs 5
          = JSSet.has bobSynced.net.srv.favs 5) ∧
      (JSSet.has (favBtnClick demoEnv songA ⟨.songs, 0⟩ bobSynced).2.favIds 5
          = JSSet.has bobSynced.favIds 5 ∧
        JSSet.has (favBtnClick demoEnv songA ⟨.favorites, 0⟩
          (favBtnClick demoEnv songA ⟨.songs, 0⟩ bobSynced).2).2.favIds 5
          = JSSet.has bobSynced.favIds 5) :=
  have h := favorites_round_trip demoOrigin (resolveAgainst demoOrigin) bobSynced songA
    ⟨.songs, 0⟩ ⟨.favorites, 0⟩ ⟨songA, by decide, rfl⟩ rfl
  ⟨⟨h.1.2.1, h.1.2.2⟩, ⟨h.2.1.2.1, h.2.1.2.2⟩, (h.2.2 5 (by decide)).1,
    (h.2.2 5 (by decide)).2.2 (by
      have e1 : bobSynced.favIds = [5] := rfl
      have e2 : (favoritesOf bobSynced.net.srv).map Song.id = [5] := rfl
      rw [e1, e2]
      simp [JSSet.has])⟩

end CircularPlaylist
